import Mathlib

/-!
Shallow embedding of `src/lib/dataTransformer.js` from the
english-vocab-tracker repository, together with proofs of the frozen
claims about its behaviour.

Spreadsheet cells are modelled as a tagged scalar variant (string,
number, boolean, null/undefined); rows are lists of cells; a worksheet's
`values` grid is a list of rows.  All functions are direct translations
of the JavaScript source: `getCell`, `isEmptyRow`, `isHeaderRow`,
`parseWord`, `parseTopics`, `calculateStatistics`,
`calculateTopicStatistics` and `transformVocabData`.
-/

namespace VocabTracker

/-- A spreadsheet cell value: JS string, number, boolean, or
null/undefined (both collapsed into `null`). -/
inductive Cell where
  | null : Cell
  | str : String → Cell
  | num : Int → Cell
  | bool : Bool → Cell
deriving Repr, DecidableEq

/-- JS `String(value)` for a non-null cell value. -/
def cellString : Cell → String
  | Cell.null => ""
  | Cell.str s => s
  | Cell.num n => toString n
  | Cell.bool b => if b then "true" else "false"

/-- JS `String.prototype.trim()`: strip leading and trailing
whitespace, modelled on the underlying character list. -/
def jsTrim (s : String) : String :=
  String.mk (((s.data.dropWhile Char.isWhitespace).reverse.dropWhile Char.isWhitespace).reverse)

/-- JS `String.prototype.toLowerCase()`, modelled as per-character
lowercasing. -/
def jsLower (s : String) : String :=
  String.mk (s.data.map Char.toLower)

/-- `getCell(row, index)`: out-of-range or null/undefined cells give
`""`; otherwise `String(value).trim()`. -/
def getCell (row : List Cell) (index : Nat) : String :=
  match row.get? index with
  | none => ""
  | some Cell.null => ""
  | some c => jsTrim (cellString c)

/-- One cell's emptiness test inside `isEmptyRow`:
`cell === null || cell === undefined || String(cell).trim() === ''`. -/
def isEmptyCell : Cell → Bool
  | Cell.null => true
  | c => jsTrim (cellString c) == ""

/-- `isEmptyRow(row)`. -/
def isEmptyRow (row : List Cell) : Bool :=
  row.length == 0 || row.all isEmptyCell

/-- `isHeaderRow(row)`: first cell equals "order" or second cell equals
"topic"/"session", case-insensitively. -/
def isHeaderRow (row : List Cell) : Bool :=
  if row.length == 0 then false
  else
    let firstCell := jsLower (getCell row 0)
    let secondCell := jsLower (getCell row 1)
    firstCell == "order" || secondCell == "topic" || secondCell == "session"

/-- A vocabulary word record, one per word-bearing row. -/
structure WordRecord where
  rowNumber : Nat
  order : String
  flag : String
  word : String
  partOfSpeech : String
  pronunciation : String
  meaning : String
  exampleSentence : String
  synonyms : String
  dayOfWeek : String
  date : String
deriving Repr, DecidableEq

/-- `parseWord(row, rowNumber)`: `none` when the column-D word cell is
empty, otherwise the full record. -/
def parseWord (row : List Cell) (rowNumber : Nat) : Option WordRecord :=
  let word := getCell row 3
  if word = "" ∨ jsTrim word = "" then none
  else some
    { rowNumber := rowNumber
      order := getCell row 0
      flag := getCell row 2
      word := jsTrim word
      partOfSpeech := getCell row 4
      pronunciation := getCell row 5
      meaning := getCell row 6
      exampleSentence := getCell row 7
      synonyms := getCell row 8
      dayOfWeek := getCell row 9
      date := getCell row 10 }

/-- A topic as built by `parseTopics` (statistics attached later). -/
structure Topic where
  name : String
  startRow : Nat
  words : List WordRecord
deriving Repr, DecidableEq

/-- The loop state of `parseTopics`: the emitted topics and the mutable
current-topic slot. -/
structure ParseState where
  topics : List Topic
  currentTopic : Option Topic
deriving Repr, DecidableEq

/-- Append a parsed word to a topic when present and non-empty
(the JS `if (word && word.word)` pattern). -/
def pushWord (t : Topic) (row : List Cell) (rowNumber : Nat) : Topic :=
  match parseWord row rowNumber with
  | some w => if w.word ≠ "" then { t with words := t.words ++ [w] } else t
  | none => t

/-- One iteration of the `parseTopics` loop, for the row at 0-based
index `i` of the original grid. -/
def parseRow (row : List Cell) (i : Nat) (st : ParseState) : ParseState :=
  if isEmptyRow row then st
  else
    let topicName := getCell row 1
    if topicName ≠ "" ∧ jsTrim topicName ≠ "" then
      let topics1 :=
        match st.currentTopic with
        | some t => st.topics ++ [t]
        | none => st.topics
      let newTopic : Topic := { name := jsTrim topicName, startRow := i + 1, words := [] }
      { topics := topics1, currentTopic := some (pushWord newTopic row (i + 1)) }
    else
      match st.currentTopic with
      | some t => { st with currentTopic := some (pushWord t row (i + 1)) }
      | none =>
        let t : Topic := { name := "Uncategorized", startRow := i + 1, words := [] }
        { st with currentTopic := some (pushWord t row (i + 1)) }

/-- The `parseTopics` loop over the rows from index `i` on. -/
def parseTopicsAux : List (List Cell) → Nat → ParseState → ParseState
  | [], _, st => st
  | row :: rest, i, st => parseTopicsAux rest (i + 1) (parseRow row i st)

/-- After the loop: push the last current topic, if any. -/
def finishState (st : ParseState) : List Topic :=
  match st.currentTopic with
  | some t => st.topics ++ [t]
  | none => st.topics

/-- `parseTopics(rows)`: header-skip, then the row loop, then push the
last topic. -/
def parseTopics (rows : List (List Cell)) : List Topic :=
  let start : Nat :=
    match rows.head? with
    | some r0 => if isHeaderRow r0 then 1 else 0
    | none => 0
  finishState (parseTopicsAux (rows.drop start) start { topics := [], currentTopic := none })

/-- The `byFlag` bucket counters of a statistics object. -/
structure ByFlag where
  new : Nat
  known : Nat
  forgotten : Nat
  learned : Nat
deriving Repr, DecidableEq

/-- The flag normalization applied by both aggregators:
`(word.flag || '').toString().toLowerCase().trim()` (on a string flag,
`|| ''` and `toString()` are the identity). -/
def flagKey (f : String) : String := jsTrim (jsLower f)

/-- The per-word body of both aggregators' inner loop. -/
def bumpFlag (bf : ByFlag) (f : String) : ByFlag :=
  let flag := flagKey f
  if flag = "n" then { bf with new := bf.new + 1 }
  else if flag = "y" then { bf with known := bf.known + 1 }
  else if flag = "?" then { bf with forgotten := bf.forgotten + 1 }
  else if flag = "ok" then { bf with learned := bf.learned + 1 }
  else bf

/-- Worksheet-level statistics (`calculateStatistics` result shape). -/
structure WorksheetStats where
  totalTopics : Nat
  totalWords : Nat
  byFlag : ByFlag
deriving Repr, DecidableEq

/-- Topic-level statistics (`calculateTopicStatistics` result shape:
no `totalTopics` field). -/
structure TopicStats where
  totalWords : Nat
  byFlag : ByFlag
deriving Repr, DecidableEq

/-- `calculateStatistics(topics)`. -/
def calculateStatistics (topics : List Topic) : WorksheetStats :=
  topics.foldl
    (fun s t =>
      { s with
        totalWords := s.totalWords + t.words.length
        byFlag := t.words.foldl (fun bf w => bumpFlag bf w.flag) s.byFlag })
    { totalTopics := topics.length, totalWords := 0
      byFlag := { new := 0, known := 0, forgotten := 0, learned := 0 } }

/-- `calculateTopicStatistics(topics)`. -/
def calculateTopicStatistics (topics : List Topic) : TopicStats :=
  topics.foldl
    (fun s t =>
      { s with
        totalWords := s.totalWords + t.words.length
        byFlag := t.words.foldl (fun bf w => bumpFlag bf w.flag) s.byFlag })
    { totalWords := 0
      byFlag := { new := 0, known := 0, forgotten := 0, learned := 0 } }

/-- An input worksheet as delivered by the upstream fetch layer: either
a values grid or an upstream error marker (or both fields in any
state — the transformer only tests them). -/
structure RawWorksheet where
  name : String
  range : String
  rowCount : Nat
  columnCount : Nat
  error : Option String
  values : Option (List (List Cell))
deriving Repr, DecidableEq

/-- JS truthiness of `worksheet.error`. -/
def errTruthy (ws : RawWorksheet) : Bool :=
  match ws.error with
  | some e => e ≠ ""
  | none => false

/-- The pass-through test of the worksheet loop:
`worksheet.error || !worksheet.values || worksheet.values.length === 0`. -/
def skipWorksheet (ws : RawWorksheet) : Bool :=
  errTruthy ws ||
    (match ws.values with
     | none => true
     | some vs => vs.length == 0)

/-- A topic with its per-topic statistics attached. -/
structure StructuredTopic where
  name : String
  startRow : Nat
  words : List WordRecord
  statistics : TopicStats
deriving Repr, DecidableEq

/-- A structured worksheet in the transformer's output. -/
structure StructuredWorksheet where
  name : String
  range : String
  rowCount : Nat
  columnCount : Nat
  topics : List StructuredTopic
  statistics : WorksheetStats
deriving Repr, DecidableEq

/-- An output worksheet: either the raw input passed through unchanged,
or the structured document. -/
inductive OutWorksheet where
  | passthrough : RawWorksheet → OutWorksheet
  | structured : StructuredWorksheet → OutWorksheet
deriving Repr, DecidableEq

/-- The whole-payload input of `transformVocabData`. -/
structure ExcelData where
  fileName : String
  fileSize : Nat
  worksheets : List RawWorksheet
  _cached : Option Bool
  _cachedAt : Option String
  _fetchedAt : Option String
deriving Repr, DecidableEq

/-- The transformed payload built by `transformVocabData`. -/
structure TransformResult where
  fileName : String
  fileSize : Nat
  worksheets : List OutWorksheet
  _cached : Option Bool
  _cachedAt : Option String
  _fetchedAt : Option String
deriving Repr, DecidableEq

/-- The per-worksheet body of `transformVocabData`'s loop. -/
def transformWorksheet (ws : RawWorksheet) : OutWorksheet :=
  if skipWorksheet ws then OutWorksheet.passthrough ws
  else
    let vals := ws.values.getD []
    let topics := parseTopics vals
    OutWorksheet.structured
      { name := ws.name
        range := ws.range
        rowCount := ws.rowCount
        columnCount := ws.columnCount
        topics := topics.map (fun t =>
          { name := t.name, startRow := t.startRow, words := t.words
            statistics := calculateTopicStatistics [t] })
        statistics := calculateStatistics topics }

/-- `transformVocabData(excelData)`: `Sum.inl` is the identity
pass-through branch (the input returned unchanged), `Sum.inr` the
transformed document. -/
def transformVocabData (input : Option ExcelData) :
    Sum (Option ExcelData) TransformResult :=
  match input with
  | none => Sum.inl none
  | some d =>
    if d.worksheets.length = 0 then Sum.inl (some d)
    else
      Sum.inr
        { fileName := d.fileName
          fileSize := d.fileSize
          worksheets := d.worksheets.map transformWorksheet
          _cached := d._cached
          _cachedAt :=
            match d._cachedAt with
            | some s => if s ≠ "" then some s else none
            | none => none
          _fetchedAt :=
            match d._fetchedAt with
            | some s => if s ≠ "" then some s else none
            | none => none }

/-! ### Concrete sample data used in witnesses and counterexamples -/

/-- A word record with the given row number, flag and word, and empty
auxiliary fields. -/
def sampleWord (n : Nat) (f wd : String) : WordRecord :=
  { rowNumber := n, order := "", flag := f, word := wd, partOfSpeech := ""
    pronunciation := "", meaning := "", exampleSentence := "", synonyms := ""
    dayOfWeek := "", date := "" }

/-- A worksheet carrying an upstream error marker and no values. -/
def errWs : RawWorksheet :=
  { name := "X", range := "", rowCount := 0, columnCount := 0
    error := some "boom", values := none }

/-- A healthy worksheet with one topic-marker row and no word. -/
def okWs : RawWorksheet :=
  { name := "S", range := "A1:K1", rowCount := 1, columnCount := 4
    error := none
    values := some [[Cell.null, Cell.str "T", Cell.null, Cell.null]] }

/-- The structured worksheet that `transformVocabData` produces for
`okWs`. -/
def okSw : StructuredWorksheet :=
  { name := "S", range := "A1:K1", rowCount := 1, columnCount := 4
    topics := [{ name := "T", startRow := 1, words := []
                 statistics := { totalWords := 0
                                 byFlag := { new := 0, known := 0, forgotten := 0, learned := 0 } } }]
    statistics := { totalTopics := 1, totalWords := 0
                    byFlag := { new := 0, known := 0, forgotten := 0, learned := 0 } } }

/-! ### Helper lemmas about the statistics aggregators -/

/-- Number of words in `ws` whose normalized flag equals `key`. -/
def countFlag (ws : List WordRecord) (key : String) : Nat :=
  ws.countP (fun w => flagKey w.flag == key)

/-- `bumpFlag` adds one to exactly the bucket selected by the
normalized flag, and to no other bucket. -/
lemma bumpFlag_spec (bf : ByFlag) (f : String) :
    bumpFlag bf f =
      { new := bf.new + (if flagKey f = "n" then 1 else 0)
        known := bf.known + (if flagKey f = "y" then 1 else 0)
        forgotten := bf.forgotten + (if flagKey f = "?" then 1 else 0)
        learned := bf.learned + (if flagKey f = "ok" then 1 else 0) } := by
  unfold bumpFlag
  split_ifs with h1 h2 h3 h4 <;> simp_all

/-- The inner flag-counting fold computes the four `countFlag` values. -/
lemma flagFold_spec (ws : List WordRecord) (bf : ByFlag) :
    ws.foldl (fun bf w => bumpFlag bf w.flag) bf =
      { new := bf.new + countFlag ws "n"
        known := bf.known + countFlag ws "y"
        forgotten := bf.forgotten + countFlag ws "?"
        learned := bf.learned + countFlag ws "ok" } := by
  induction ws generalizing bf with
  | nil => simp [countFlag]
  | cons w ws ih =>
    rw [List.foldl_cons, ih, bumpFlag_spec]
    simp only [countFlag, List.countP_cons, beq_iff_eq, ByFlag.mk.injEq]
    refine ⟨?_, ?_, ?_, ?_⟩ <;> omega

/-- The worksheet-level statistics fold, characterized over the
flattened word list. -/
lemma statsFold_spec (ts : List Topic) (s : WorksheetStats) :
    ts.foldl
      (fun s t =>
        { s with
          totalWords := s.totalWords + t.words.length
          byFlag := t.words.foldl (fun bf w => bumpFlag bf w.flag) s.byFlag }) s =
      { totalTopics := s.totalTopics
        totalWords := s.totalWords + (ts.flatMap Topic.words).length
        byFlag := (ts.flatMap Topic.words).foldl (fun bf w => bumpFlag bf w.flag) s.byFlag } := by
  induction ts generalizing s with
  | nil => simp
  | cons t ts ih =>
    rw [List.foldl_cons, ih]
    simp [List.flatMap_cons, List.foldl_append, Nat.add_assoc]

/-- The topic-level statistics fold, characterized over the flattened
word list. -/
lemma topicStatsFold_spec (ts : List Topic) (s : TopicStats) :
    ts.foldl
      (fun s t =>
        { s with
          totalWords := s.totalWords + t.words.length
          byFlag := t.words.foldl (fun bf w => bumpFlag bf w.flag) s.byFlag }) s =
      { totalWords := s.totalWords + (ts.flatMap Topic.words).length
        byFlag := (ts.flatMap Topic.words).foldl (fun bf w => bumpFlag bf w.flag) s.byFlag } := by
  induction ts generalizing s with
  | nil => simp
  | cons t ts ih =>
    rw [List.foldl_cons, ih]
    simp [List.flatMap_cons, List.foldl_append, Nat.add_assoc]

/-- Closed form for `calculateStatistics`. -/
lemma calculateStatistics_spec (ts : List Topic) :
    calculateStatistics ts =
      { totalTopics := ts.length
        totalWords := (ts.flatMap Topic.words).length
        byFlag :=
          { new := countFlag (ts.flatMap Topic.words) "n"
            known := countFlag (ts.flatMap Topic.words) "y"
            forgotten := countFlag (ts.flatMap Topic.words) "?"
            learned := countFlag (ts.flatMap Topic.words) "ok" } } := by
  unfold calculateStatistics
  rw [statsFold_spec, flagFold_spec]
  simp

/-- Closed form for `calculateTopicStatistics`. -/
lemma calculateTopicStatistics_spec (ts : List Topic) :
    calculateTopicStatistics ts =
      { totalWords := (ts.flatMap Topic.words).length
        byFlag :=
          { new := countFlag (ts.flatMap Topic.words) "n"
            known := countFlag (ts.flatMap Topic.words) "y"
            forgotten := countFlag (ts.flatMap Topic.words) "?"
            learned := countFlag (ts.flatMap Topic.words) "ok" } } := by
  unfold calculateTopicStatistics
  rw [topicStatsFold_spec, flagFold_spec]
  simp

/-- Topic-wise word permutations induce a permutation of the flattened
word list. -/
lemma forall2_words_perm {ts tsMid : List Topic}
    (h : List.Forall₂
      (fun a b => a.name = b.name ∧ a.startRow = b.startRow ∧ a.words.Perm b.words) ts tsMid) :
    (ts.flatMap Topic.words).Perm (tsMid.flatMap Topic.words) := by
  induction h with
  | nil => simp
  | cons h _ ih =>
    simp only [List.flatMap_cons]
    exact (h.2.2).append ih

/-! ### Helper lemmas about the row-grouping parser -/

/-- A produced word record carries the given row number, the trimmed
column-D value as its word, and that value is non-empty. -/
lemma parseWord_some {row : List Cell} {n : Nat} {w : WordRecord}
    (h : parseWord row n = some w) :
    w.rowNumber = n ∧ w.word = jsTrim (getCell row 3) ∧ jsTrim (getCell row 3) ≠ "" := by
  simp only [parseWord] at h
  split at h
  · exact absurd h (by simp)
  · rename_i hguard
    cases h
    refine ⟨rfl, rfl, ?_⟩
    intro hcontra
    exact hguard (Or.inr hcontra)

/-- `pushWord` appends exactly the parsed word of the row, when any. -/
lemma pushWord_words (t : Topic) (row : List Cell) (n : Nat) :
    (pushWord t row n).words = t.words ++ (parseWord row n).toList := by
  unfold pushWord
  cases hpw : parseWord row n with
  | none => simp
  | some w =>
    have hne : w.word ≠ "" := by
      rw [(parseWord_some hpw).2.1]
      exact (parseWord_some hpw).2.2
    simp [hne]

/-- `pushWord` in closed form. -/
lemma pushWord_eq (t : Topic) (row : List Cell) (n : Nat) :
    pushWord t row n =
      { name := t.name, startRow := t.startRow
        words := t.words ++ (parseWord row n).toList } := by
  unfold pushWord
  cases hpw : parseWord row n with
  | none => simp
  | some w =>
    have hne : w.word ≠ "" := by
      rw [(parseWord_some hpw).2.1]
      exact (parseWord_some hpw).2.2
    simp [hne]

/-- `pushWord` changes neither the name nor the start row. -/
lemma pushWord_name_startRow (t : Topic) (row : List Cell) (n : Nat) :
    (pushWord t row n).name = t.name ∧ (pushWord t row n).startRow = t.startRow := by
  unfold pushWord
  cases parseWord row n with
  | none => exact ⟨rfl, rfl⟩
  | some w => by_cases hw : w.word ≠ "" <;> simp [hw]

/-- All word records reachable in a parse state: those in the emitted
topics and those in the current-topic slot. -/
def stateWords (st : ParseState) : List WordRecord :=
  (st.topics.flatMap Topic.words) ++
    (match st.currentTopic with
     | some t => t.words
     | none => [])

/-- A word present after one loop iteration was already present, or was
parsed from the processed row. -/
lemma stateWords_parseRow {w : WordRecord} (row : List Cell) (i : Nat) (st : ParseState)
    (h : w ∈ stateWords (parseRow row i st)) :
    w ∈ stateWords st ∨ parseWord row (i + 1) = some w := by
  simp only [parseRow] at h
  by_cases hemp : isEmptyRow row = true
  · rw [if_pos hemp] at h
    exact Or.inl h
  · rw [if_neg hemp] at h
    by_cases htop : getCell row 1 ≠ "" ∧ jsTrim (getCell row 1) ≠ "" <;>
      [rw [if_pos htop] at h; rw [if_neg htop] at h] <;>
      cases hcur : st.currentTopic with
    | _ =>
      rw [hcur] at h
      simp only [stateWords, hcur, pushWord_words, List.flatMap_append, List.flatMap_cons,
        List.flatMap_nil, List.append_nil, List.nil_append, List.mem_append, List.mem_flatMap,
        Option.mem_toList, Option.mem_def] at h ⊢
      aesop

/-- Invariant propagation through the whole parse loop. -/
lemma parseTopicsAux_words (P : WordRecord → Prop) :
    ∀ (rest : List (List Cell)) (i : Nat) (st : ParseState),
      (∀ w ∈ stateWords st, P w) →
      (∀ j, j < rest.length → ∀ w, parseWord (rest.getD j []) (i + j + 1) = some w → P w) →
      ∀ w ∈ stateWords (parseTopicsAux rest i st), P w := by
  intro rest
  induction rest with
  | nil => intro i st h1 _ w hw; exact h1 w hw
  | cons row rest ih =>
    intro i st h1 h2 w hw
    refine ih (i + 1) (parseRow row i st) ?_ ?_ w hw
    · intro w' hw'
      rcases stateWords_parseRow row i st hw' with h | h
      · exact h1 w' h
      · exact h2 0 (by simp) w' (by simpa using h)
    · intro j hj w' hw'
      refine h2 (j + 1) (by simpa using hj) w' ?_
      have harith : i + 1 + j + 1 = i + (j + 1) + 1 := by omega
      simpa [harith] using hw'

/-- Every word of an emitted topic is reachable in the final state. -/
lemma finishState_words {t : Topic} {w : WordRecord} (st : ParseState)
    (ht : t ∈ finishState st) (hw : w ∈ t.words) :
    w ∈ stateWords st := by
  unfold finishState at ht
  unfold stateWords
  cases hcur : st.currentTopic with
  | none =>
    rw [hcur] at ht
    simp only [hcur]
    exact List.mem_append.mpr (Or.inl (List.mem_flatMap.mpr ⟨t, ht, hw⟩))
  | some t' =>
    rw [hcur] at ht
    simp only [hcur]
    rcases List.mem_append.mp ht with ht | ht
    · exact List.mem_append.mpr (Or.inl (List.mem_flatMap.mpr ⟨t, ht, hw⟩))
    · simp only [List.mem_singleton] at ht
      subst ht
      exact List.mem_append.mpr (Or.inr hw)

/-! ### Claim theorems -/

/-- Claim C1: in `parseTopics`, a non-empty row whose column-B cell is
non-empty after trimming starts a new topic whose name is the trimmed
column-B value and whose `startRow` is the row's 1-based index; an
existing current topic is pushed to the output first, unchanged (even
with zero words), and the row's own word — when its column-D cell is
non-empty — is appended to the newly started topic, not to the topic
being closed. -/
theorem parseRow_topic_start (st : ParseState) (row : List Cell) (i : Nat)
    (hne : isEmptyRow row = false)
    (ht : jsTrim (getCell row 1) ≠ "") :
    (parseRow row i st).topics =
      st.topics ++
        (match st.currentTopic with
         | some t => [t]
         | none => []) ∧
    (parseRow row i st).currentTopic =
      some { name := jsTrim (getCell row 1), startRow := i + 1
             words := (parseWord row (i + 1)).toList } := by
  have hnz : getCell row 1 ≠ "" := by
    intro hc
    apply ht
    rw [hc]
    decide
  simp only [parseRow]
  split_ifs with h1 h2
  · rw [hne] at h1
    exact absurd h1 (by simp)
  · cases hcur : st.currentTopic with
    | none => simp [hcur, pushWord_eq]
    | some t => simp [hcur, pushWord_eq]
  · exact absurd ⟨hnz, ht⟩ h2

/-- Witness for Claim C1 at a concrete topic-start row, with a current
topic holding zero words. -/
theorem parseRow_topic_start_witness :
    (parseRow [Cell.null, Cell.str "T1", Cell.str "n", Cell.str "apple"] 1
        { topics := [], currentTopic := some { name := "T0", startRow := 1, words := [] } }).topics =
      [{ name := "T0", startRow := 1, words := [] }] ∧
    (parseRow [Cell.null, Cell.str "T1", Cell.str "n", Cell.str "apple"] 1
        { topics := [], currentTopic := some { name := "T0", startRow := 1, words := [] } }).currentTopic =
      some { name := "T1", startRow := 2
             words := (parseWord [Cell.null, Cell.str "T1", Cell.str "n", Cell.str "apple"] 2).toList } := by
  have h := parseRow_topic_start
    { topics := [], currentTopic := some { name := "T0", startRow := 1, words := [] } }
    [Cell.null, Cell.str "T1", Cell.str "n", Cell.str "apple"] 1
    (by decide) (by decide)
  simpa using h

/-- Claim C2: every structured worksheet in the output of
`transformVocabData` reports `totalWords` equal to the sum of its
topics' word-list lengths and `totalTopics` equal to its number of
topics. -/
theorem transform_worksheet_statistics (d : ExcelData) (r : TransformResult)
    (sw : StructuredWorksheet)
    (hr : transformVocabData (some d) = Sum.inr r)
    (hm : OutWorksheet.structured sw ∈ r.worksheets) :
    sw.statistics.totalWords = (sw.topics.map (fun t => t.words.length)).sum ∧
    sw.statistics.totalTopics = sw.topics.length := by
  have hws : r.worksheets = d.worksheets.map transformWorksheet := by
    simp only [transformVocabData] at hr
    split at hr
    · exact absurd hr (by simp)
    · cases hr
      rfl
  rw [hws] at hm
  rcases List.mem_map.mp hm with ⟨ws, _, htr⟩
  simp only [transformWorksheet] at htr
  split at htr
  · exact absurd htr (by simp)
  · injection htr with htr
    subst htr
    constructor
    · rw [calculateStatistics_spec]
      simp only [List.map_map, List.length_flatMap]
      rfl
    · rw [calculateStatistics_spec]
      simp [List.length_map]

/-- Witness for Claim C2 on a one-worksheet payload whose single topic
has zero words. -/
theorem transform_worksheet_statistics_witness :
    okSw.statistics.totalWords = (okSw.topics.map (fun t => t.words.length)).sum ∧
    okSw.statistics.totalTopics = okSw.topics.length :=
  transform_worksheet_statistics
    { fileName := "s", fileSize := 5, worksheets := [okWs]
      _cached := none, _cachedAt := none, _fetchedAt := none }
    { fileName := "s", fileSize := 5, worksheets := [OutWorksheet.structured okSw]
      _cached := none, _cachedAt := none, _fetchedAt := none }
    okSw (by decide) (by decide)

/-- Claim C3 (counterexample): `parseTopics` can emit a topic named
"Uncategorized" although no word row (non-empty column D) appears
anywhere in the grid, refuting "only when a word row appears before any
topic-marker row": a non-empty row with empty column B and empty
column D suffices. -/
theorem parseTopics_uncategorized_counterexample :
    parseTopics [[Cell.str "x"]] =
      [{ name := "Uncategorized", startRow := 1, words := [] }] ∧
    getCell [Cell.str "x"] 3 = "" ∧
    getCell [Cell.str "x"] 1 = "" := by
  decide

/-- Claim C3 (amended): in `parseTopics`, a non-empty row whose
column-B cell is empty after trimming, processed while no current topic
exists, starts the topic "Uncategorized" with `startRow` the row's
1-based index — whether or not the row carries a word; the row's word,
when its column-D cell is non-empty, is extracted and appended to it. -/
theorem parseRow_uncategorized (st : ParseState) (row : List Cell) (i : Nat)
    (hne : isEmptyRow row = false)
    (hb : jsTrim (getCell row 1) = "")
    (hcur : st.currentTopic = none) :
    parseRow row i st =
      { topics := st.topics
        currentTopic := some { name := "Uncategorized", startRow := i + 1
                               words := (parseWord row (i + 1)).toList } } := by
  simp only [parseRow]
  split_ifs with h1 h2
  · rw [hne] at h1
    exact absurd h1 (by simp)
  · exact absurd hb h2.2
  · rw [hcur]
    simp [pushWord_eq]

/-- Witness for the amended Claim C3 at a concrete word row appearing
before any topic marker. -/
theorem parseRow_uncategorized_witness :
    parseRow [Cell.str "1", Cell.null, Cell.str "N", Cell.str "apple"] 0
        { topics := [], currentTopic := none } =
      { topics := []
        currentTopic := some { name := "Uncategorized", startRow := 1
                               words := (parseWord [Cell.str "1", Cell.null, Cell.str "N", Cell.str "apple"] 1).toList } } :=
  parseRow_uncategorized { topics := [], currentTopic := none }
    [Cell.str "1", Cell.null, Cell.str "N", Cell.str "apple"] 0
    (by decide) (by decide) rfl

/-- Claim C4: the aggregators classify a word's flag by normalizing it
(absent to empty, trim, lowercase) and matching exactly: "n" counts as
new, "y" as known, "?" as forgotten, "ok" as learned, anything else
(including empty) in no bucket while the word still counts toward
`totalWords`; in particular "N", "n" and " N " all classify as new,
while "maybe" and "" hit no bucket. -/
theorem statistics_flag_classification (w : WordRecord) (nm : String) (sr : Nat) :
    (calculateStatistics [{ name := nm, startRow := sr, words := [w] }]).totalWords = 1 ∧
    (calculateStatistics [{ name := nm, startRow := sr, words := [w] }]).byFlag.new =
      (if flagKey w.flag = "n" then 1 else 0) ∧
    (calculateStatistics [{ name := nm, startRow := sr, words := [w] }]).byFlag.known =
      (if flagKey w.flag = "y" then 1 else 0) ∧
    (calculateStatistics [{ name := nm, startRow := sr, words := [w] }]).byFlag.forgotten =
      (if flagKey w.flag = "?" then 1 else 0) ∧
    (calculateStatistics [{ name := nm, startRow := sr, words := [w] }]).byFlag.learned =
      (if flagKey w.flag = "ok" then 1 else 0) ∧
    flagKey "N" = "n" ∧ flagKey "n" = "n" ∧ flagKey " N " = "n" ∧
    flagKey "maybe" ≠ "n" ∧ flagKey "maybe" ≠ "y" ∧ flagKey "maybe" ≠ "?" ∧
    flagKey "maybe" ≠ "ok" ∧ flagKey "" ≠ "n" ∧ flagKey "" ≠ "y" ∧
    flagKey "" ≠ "?" ∧ flagKey "" ≠ "ok" := by
  rw [calculateStatistics_spec]
  simp only [List.flatMap_cons, List.flatMap_nil, List.append_nil, List.length_cons,
    List.length_nil, countFlag, List.countP_cons, List.countP_nil, beq_iff_eq, Nat.zero_add]
  refine ⟨by simp, by simp, by simp, by simp, by simp, by decide, by decide, by decide, by decide,
    by decide, by decide, by decide, by decide, by decide, by decide, by decide⟩

/-- Claim C5: `transformVocabData` returns its input unchanged when the
input is absent or has zero worksheets, and each worksheet with an
error marker or absent/empty values is passed through unchanged at the
same position, bypassing parsing. -/
theorem transformVocabData_passthrough (d0 d : ExcelData) (r : TransformResult)
    (i : Nat) (ws : RawWorksheet)
    (h0 : d0.worksheets.length = 0)
    (hr : transformVocabData (some d) = Sum.inr r)
    (hws : d.worksheets.get? i = some ws)
    (hskip : skipWorksheet ws = true) :
    transformVocabData none = Sum.inl none ∧
    transformVocabData (some d0) = Sum.inl (some d0) ∧
    r.worksheets.get? i = some (OutWorksheet.passthrough ws) := by
  refine ⟨rfl, ?_, ?_⟩
  · simp [transformVocabData, h0]
  · have hwr : r.worksheets = d.worksheets.map transformWorksheet := by
      simp only [transformVocabData] at hr
      split at hr
      · exact absurd hr (by simp)
      · cases hr
        rfl
    rw [hwr, List.get?_map, hws]
    simp [transformWorksheet, hskip]

/-- Witness for Claim C5 on an empty payload and a payload holding one
errored worksheet. -/
theorem transformVocabData_passthrough_witness :
    transformVocabData none = Sum.inl none ∧
    transformVocabData (some { fileName := "e", fileSize := 0, worksheets := []
                               _cached := none, _cachedAt := none, _fetchedAt := none }) =
      Sum.inl (some { fileName := "e", fileSize := 0, worksheets := []
                      _cached := none, _cachedAt := none, _fetchedAt := none }) ∧
    ({ fileName := "g", fileSize := 2, worksheets := [OutWorksheet.passthrough errWs]
       _cached := none, _cachedAt := none, _fetchedAt := none } :
      TransformResult).worksheets.get? 0 = some (OutWorksheet.passthrough errWs) :=
  transformVocabData_passthrough
    { fileName := "e", fileSize := 0, worksheets := []
      _cached := none, _cachedAt := none, _fetchedAt := none }
    { fileName := "g", fileSize := 2, worksheets := [errWs]
      _cached := none, _cachedAt := none, _fetchedAt := none }
    { fileName := "g", fileSize := 2, worksheets := [OutWorksheet.passthrough errWs]
      _cached := none, _cachedAt := none, _fetchedAt := none }
    0 errWs rfl (by decide) rfl (by decide)

/-- Claim C6 (counterexample): an input whose `_cachedAt` is present
but equal to `""` takes the transformed branch yet loses the field — it
is absent from the output — refuting "present in the output with its
input value whenever it is present on the input". -/
theorem transformVocabData_metadata_counterexample :
    ({ fileName := "h", fileSize := 3, worksheets := [errWs]
       _cached := none, _cachedAt := some "", _fetchedAt := none } :
      ExcelData)._cachedAt = some "" ∧
    transformVocabData
        (some { fileName := "h", fileSize := 3, worksheets := [errWs]
                _cached := none, _cachedAt := some "", _fetchedAt := none }) =
      Sum.inr { fileName := "h", fileSize := 3
                worksheets := [OutWorksheet.passthrough errWs]
                _cached := none, _cachedAt := none, _fetchedAt := none } := by
  decide

/-- Claim C6 (amended): on the transformed branch, `_cached` is
propagated unchanged exactly when present, while `_cachedAt` and
`_fetchedAt` are propagated unchanged exactly when present and
non-empty (JS-truthy) and are absent otherwise; the remaining output
fields do not depend on the metadata fields. -/
theorem transformVocabData_metadata (d : ExcelData) (r : TransformResult)
    (hr : transformVocabData (some d) = Sum.inr r) :
    r._cached = d._cached ∧
    r._cachedAt = Option.filter (fun s => s != "") d._cachedAt ∧
    r._fetchedAt = Option.filter (fun s => s != "") d._fetchedAt ∧
    r.fileName = d.fileName ∧ r.fileSize = d.fileSize ∧
    r.worksheets = d.worksheets.map transformWorksheet := by
  simp only [transformVocabData] at hr
  split at hr
  · exact absurd hr (by simp)
  · cases hr
    refine ⟨rfl, ?_, ?_, rfl, rfl, rfl⟩
    · cases d._cachedAt with
      | none => rfl
      | some s => by_cases h : s = "" <;> simp [Option.filter, h]
    · cases d._fetchedAt with
      | none => rfl
      | some s => by_cases h : s = "" <;> simp [Option.filter, h]

/-- Witness for the amended Claim C6 with all three metadata fields
present and truthy. -/
theorem transformVocabData_metadata_witness :
    ({ fileName := "k", fileSize := 4, worksheets := [OutWorksheet.passthrough errWs]
       _cached := some true, _cachedAt := some "2024-01-01T00:00:00Z"
       _fetchedAt := some "2024-01-02T00:00:00Z" } : TransformResult)._cached =
      ({ fileName := "k", fileSize := 4, worksheets := [errWs]
         _cached := some true, _cachedAt := some "2024-01-01T00:00:00Z"
         _fetchedAt := some "2024-01-02T00:00:00Z" } : ExcelData)._cached ∧
    ({ fileName := "k", fileSize := 4, worksheets := [OutWorksheet.passthrough errWs]
       _cached := some true, _cachedAt := some "2024-01-01T00:00:00Z"
       _fetchedAt := some "2024-01-02T00:00:00Z" } : TransformResult)._cachedAt =
      Option.filter (fun s => s != "")
        ({ fileName := "k", fileSize := 4, worksheets := [errWs]
           _cached := some true, _cachedAt := some "2024-01-01T00:00:00Z"
           _fetchedAt := some "2024-01-02T00:00:00Z" } : ExcelData)._cachedAt ∧
    ({ fileName := "k", fileSize := 4, worksheets := [OutWorksheet.passthrough errWs]
       _cached := some true, _cachedAt := some "2024-01-01T00:00:00Z"
       _fetchedAt := some "2024-01-02T00:00:00Z" } : TransformResult)._fetchedAt =
      Option.filter (fun s => s != "")
        ({ fileName := "k", fileSize := 4, worksheets := [errWs]
           _cached := some true, _cachedAt := some "2024-01-01T00:00:00Z"
           _fetchedAt := some "2024-01-02T00:00:00Z" } : ExcelData)._fetchedAt ∧
    ({ fileName := "k", fileSize := 4, worksheets := [OutWorksheet.passthrough errWs]
       _cached := some true, _cachedAt := some "2024-01-01T00:00:00Z"
       _fetchedAt := some "2024-01-02T00:00:00Z" } : TransformResult).fileName =
      ({ fileName := "k", fileSize := 4, worksheets := [errWs]
         _cached := some true, _cachedAt := some "2024-01-01T00:00:00Z"
         _fetchedAt := some "2024-01-02T00:00:00Z" } : ExcelData).fileName ∧
    ({ fileName := "k", fileSize := 4, worksheets := [OutWorksheet.passthrough errWs]
       _cached := some true, _cachedAt := some "2024-01-01T00:00:00Z"
       _fetchedAt := some "2024-01-02T00:00:00Z" } : TransformResult).fileSize =
      ({ fileName := "k", fileSize := 4, worksheets := [errWs]
         _cached := some true, _cachedAt := some "2024-01-01T00:00:00Z"
         _fetchedAt := some "2024-01-02T00:00:00Z" } : ExcelData).fileSize ∧
    ({ fileName := "k", fileSize := 4, worksheets := [OutWorksheet.passthrough errWs]
       _cached := some true, _cachedAt := some "2024-01-01T00:00:00Z"
       _fetchedAt := some "2024-01-02T00:00:00Z" } : TransformResult).worksheets =
      ({ fileName := "k", fileSize := 4, worksheets := [errWs]
         _cached := some true, _cachedAt := some "2024-01-01T00:00:00Z"
         _fetchedAt := some "2024-01-02T00:00:00Z" } : ExcelData).worksheets.map transformWorksheet :=
  transformVocabData_metadata
    { fileName := "k", fileSize := 4, worksheets := [errWs]
      _cached := some true, _cachedAt := some "2024-01-01T00:00:00Z"
      _fetchedAt := some "2024-01-02T00:00:00Z" }
    { fileName := "k", fileSize := 4, worksheets := [OutWorksheet.passthrough errWs]
      _cached := some true, _cachedAt := some "2024-01-01T00:00:00Z"
      _fetchedAt := some "2024-01-02T00:00:00Z" }
    (by decide)

/-- Claim C7: `parseTopics` skips row 0 exactly when it looks like a
header — first cell case-insensitively "order", or second cell
case-insensitively "topic" or "session" — and a row all of whose cells
are null or whitespace-only is skipped with no state change. -/
theorem parseTopics_header_and_empty_skip (row r0 : List Cell) (rest : List (List Cell))
    (st : ParseState) (i : Nat)
    (hemp : isEmptyRow row = true) :
    (isHeaderRow r0 =
      (jsLower (getCell r0 0) == "order" || jsLower (getCell r0 1) == "topic" ||
        jsLower (getCell r0 1) == "session")) ∧
    parseRow row i st = st ∧
    parseTopics (r0 :: rest) =
      (if isHeaderRow r0 then
        finishState (parseTopicsAux rest 1 { topics := [], currentTopic := none })
      else
        finishState (parseTopicsAux (r0 :: rest) 0 { topics := [], currentTopic := none })) := by
  refine ⟨?_, ?_, ?_⟩
  · by_cases h0 : r0.length = 0
    · have hnil : r0 = [] := List.length_eq_zero.mp h0
      subst hnil
      decide
    · simp only [isHeaderRow]
      rw [if_neg (by simpa using h0)]
  · simp [parseRow, hemp]
  · by_cases hh : isHeaderRow r0 <;> simp [parseTopics, hh]

/-- Witness for Claim C7 on a whitespace-only row and a concrete header
row. -/
theorem parseTopics_header_and_empty_skip_witness :
    (isHeaderRow [Cell.str "Order", Cell.str "Topic"] =
      (jsLower (getCell [Cell.str "Order", Cell.str "Topic"] 0) == "order" ||
        jsLower (getCell [Cell.str "Order", Cell.str "Topic"] 1) == "topic" ||
        jsLower (getCell [Cell.str "Order", Cell.str "Topic"] 1) == "session")) ∧
    parseRow [Cell.str " ", Cell.null] 3 { topics := [], currentTopic := none } =
      { topics := [], currentTopic := none } ∧
    parseTopics [[Cell.str "Order", Cell.str "Topic"], [Cell.str "1", Cell.str "T1", Cell.str "n", Cell.str "apple"]] =
      (if isHeaderRow [Cell.str "Order", Cell.str "Topic"] then
        finishState (parseTopicsAux [[Cell.str "1", Cell.str "T1", Cell.str "n", Cell.str "apple"]] 1
          { topics := [], currentTopic := none })
      else
        finishState (parseTopicsAux
          [[Cell.str "Order", Cell.str "Topic"], [Cell.str "1", Cell.str "T1", Cell.str "n", Cell.str "apple"]] 0
          { topics := [], currentTopic := none })) :=
  parseTopics_header_and_empty_skip [Cell.str " ", Cell.null]
    [Cell.str "Order", Cell.str "Topic"]
    [[Cell.str "1", Cell.str "T1", Cell.str "n", Cell.str "apple"]]
    { topics := [], currentTopic := none } 3 (by decide)

/-- Claim C8: every word record emitted by `parseTopics` originates
from a row of the original grid whose 0-based index `i` satisfies
`rowNumber = i + 1` — 1-based position in the original grid, no matter
how many earlier rows were skipped — and is constructed by `parseWord`
only because that row's column-D cell is non-empty after trimming, its
`word` field being the trimmed value. -/
theorem parseTopics_word_attribution (rows : List (List Cell)) (t : Topic) (w : WordRecord)
    (ht : t ∈ parseTopics rows) (hw : w ∈ t.words) :
    ∃ i, i < rows.length ∧ w.rowNumber = i + 1 ∧
      parseWord (rows.getD i []) (i + 1) = some w ∧
      w.word = jsTrim (getCell (rows.getD i []) 3) ∧
      jsTrim (getCell (rows.getD i []) 3) ≠ "" := by
  have key : ∀ s : Nat,
      t ∈ finishState (parseTopicsAux (rows.drop s) s { topics := [], currentTopic := none }) →
      ∃ i, i < rows.length ∧ w.rowNumber = i + 1 ∧ parseWord (rows.getD i []) (i + 1) = some w := by
    intro s hts
    have hmem := finishState_words _ hts hw
    refine parseTopicsAux_words
      (fun w' => ∃ i, i < rows.length ∧ w'.rowNumber = i + 1 ∧
        parseWord (rows.getD i []) (i + 1) = some w')
      (rows.drop s) s _ ?_ ?_ w hmem
    · intro w' hw'
      simp [stateWords] at hw'
    · intro j hj w' hpw'
      have hlen : s + j < rows.length := by
        rw [List.length_drop] at hj
        omega
      have hget : (rows.drop s).getD j [] = rows.getD (s + j) [] := by
        rw [List.getD_eq_getD_get?, List.getD_eq_getD_get?, List.get?_drop]
      rw [hget] at hpw'
      exact ⟨s + j, hlen, (parseWord_some hpw').1, hpw'⟩
  simp only [parseTopics] at ht
  obtain ⟨i, hi, hrn, hpw⟩ := key _ ht
  exact ⟨i, hi, hrn, hpw, (parseWord_some hpw).2.1, (parseWord_some hpw).2.2⟩

/-- Witness for Claim C8 on a grid whose word row follows a header row
and an empty row, so that skipped rows precede it. -/
theorem parseTopics_word_attribution_witness :
    ∃ i, i < ([[Cell.str "Order", Cell.str "Topic"], [Cell.null],
               [Cell.null, Cell.str "T1", Cell.str "n", Cell.str "apple"]] :
        List (List Cell)).length ∧
      (sampleWord 3 "n" "apple").rowNumber = i + 1 ∧
      parseWord (([[Cell.str "Order", Cell.str "Topic"], [Cell.null],
                   [Cell.null, Cell.str "T1", Cell.str "n", Cell.str "apple"]] :
          List (List Cell)).getD i []) (i + 1) =
        some (sampleWord 3 "n" "apple") ∧
      (sampleWord 3 "n" "apple").word =
        jsTrim (getCell (([[Cell.str "Order", Cell.str "Topic"], [Cell.null],
                           [Cell.null, Cell.str "T1", Cell.str "n", Cell.str "apple"]] :
            List (List Cell)).getD i []) 3) ∧
      jsTrim (getCell (([[Cell.str "Order", Cell.str "Topic"], [Cell.null],
                         [Cell.null, Cell.str "T1", Cell.str "n", Cell.str "apple"]] :
          List (List Cell)).getD i []) 3) ≠ "" :=
  parseTopics_word_attribution
    [[Cell.str "Order", Cell.str "Topic"], [Cell.null],
     [Cell.null, Cell.str "T1", Cell.str "n", Cell.str "apple"]]
    { name := "T1", startRow := 3, words := [sampleWord 3 "n" "apple"] }
    (sampleWord 3 "n" "apple") (by decide) (by decide)

/-- Claim C9: `calculateStatistics` is a pure deterministic fold —
equal inputs give equal statistics — and its result is unchanged under
any permutation of the words within topics followed by any permutation
of the topics themselves. -/
theorem calculateStatistics_perm_invariant (ts tsMid tsFinal : List Topic)
    (h1 : List.Forall₂
      (fun a b => a.name = b.name ∧ a.startRow = b.startRow ∧ a.words.Perm b.words) ts tsMid)
    (h2 : tsMid.Perm tsFinal) :
    calculateStatistics ts = calculateStatistics ts ∧
    calculateStatistics ts = calculateStatistics tsFinal := by
  refine ⟨rfl, ?_⟩
  have hbind1 : (ts.flatMap Topic.words).Perm (tsMid.flatMap Topic.words) :=
    forall2_words_perm h1
  have hbind2 : (tsMid.flatMap Topic.words).Perm (tsFinal.flatMap Topic.words) :=
    h2.flatMap_right Topic.words
  have hperm := hbind1.trans hbind2
  have hlen : ts.length = tsFinal.length := h1.length_eq.trans h2.length_eq
  rw [calculateStatistics_spec, calculateStatistics_spec]
  simp only [countFlag, hlen, hperm.length_eq, hperm.countP_eq]

/-- Witness for Claim C9: swapping the words inside one topic and then
swapping the topics leaves the statistics unchanged. -/
theorem calculateStatistics_perm_invariant_witness :
    calculateStatistics
        [{ name := "A", startRow := 1, words := [sampleWord 2 "n" "a", sampleWord 3 "y" "b"] },
         { name := "B", startRow := 4, words := [] }] =
      calculateStatistics
        [{ name := "A", startRow := 1, words := [sampleWord 2 "n" "a", sampleWord 3 "y" "b"] },
         { name := "B", startRow := 4, words := [] }] ∧
    calculateStatistics
        [{ name := "A", startRow := 1, words := [sampleWord 2 "n" "a", sampleWord 3 "y" "b"] },
         { name := "B", startRow := 4, words := [] }] =
      calculateStatistics
        [{ name := "B", startRow := 4, words := [] },
         { name := "A", startRow := 1, words := [sampleWord 3 "y" "b", sampleWord 2 "n" "a"] }] :=
  calculateStatistics_perm_invariant
    [{ name := "A", startRow := 1, words := [sampleWord 2 "n" "a", sampleWord 3 "y" "b"] },
     { name := "B", startRow := 4, words := [] }]
    [{ name := "A", startRow := 1, words := [sampleWord 3 "y" "b", sampleWord 2 "n" "a"] },
     { name := "B", startRow := 4, words := [] }]
    [{ name := "B", startRow := 4, words := [] },
     { name := "A", startRow := 1, words := [sampleWord 3 "y" "b", sampleWord 2 "n" "a"] }]
    (List.Forall₂.cons ⟨rfl, rfl, by decide⟩ (List.Forall₂.cons ⟨rfl, rfl, by decide⟩ List.Forall₂.nil))
    (by decide)

/-- Claim C10: `calculateTopicStatistics` computes exactly the same
`totalWords` and `byFlag` counts as `calculateStatistics` on the same
topic list, differing only in omitting the `totalTopics` field. -/
theorem calculateTopicStatistics_refines (ts : List Topic) :
    (calculateTopicStatistics ts).totalWords = (calculateStatistics ts).totalWords ∧
    (calculateTopicStatistics ts).byFlag = (calculateStatistics ts).byFlag := by
  rw [calculateStatistics_spec, calculateTopicStatistics_spec]
  exact ⟨rfl, rfl⟩

end VocabTracker
